import Mathlib

set_option maxRecDepth 40000

/-!
Verification of the `ReAct-Example.py` glue script.

The script wires three toy tool functions (`multiply`, `add`,
`search_wikipedia`) into a LlamaIndex ReAct agent.  We embed the script's
own logic shallowly: the tool functions become Lean functions, the
module-level control flow becomes an explicit trace-producing program
parameterised by the external agent delegate (an oracle), and the
introspection `try`/`except` block becomes a computation in an exception
monad together with its handler.
-/

/-- Python's `sub in s` prefix step on lists of characters. -/
def listPrefixOf : List Char → List Char → Bool
  | [], _ => true
  | _ :: _, [] => false
  | a :: as, b :: bs => a == b && listPrefixOf as bs

/-- Python's substring containment `sub in s` on lists of characters. -/
def listInfixOf (sub : List Char) : List Char → Bool
  | [] => listPrefixOf sub []
  | b :: t => listPrefixOf sub (b :: t) || listInfixOf sub t

/-- Python's `sub in s` for strings: substring containment. -/
def pyIn (sub s : String) : Bool :=
  listInfixOf sub.data s.data

/-- Python's `str.lower()` (restricted, like `Char.toLower`, to the
basic-latin letters that occur in the script's table). -/
def pyLower (s : String) : String :=
  ⟨s.data.map Char.toLower⟩

/-- The article returned for queries mentioning Alan Turing
(src/ReAct-Example.py line 60). -/
def turingArticle : String :=
  "Alan Turing was a British mathematician, computer scientist, logician, cryptanalyst, philosopher, and theoretical biologist. He was highly influential in the development of theoretical computer science."

/-- The article returned for queries mentioning llamas
(src/ReAct-Example.py line 62). -/
def llamaArticle : String :=
  "A llama is a domesticated South American camelid, widely used as a meat and pack animal by Andean cultures since the Pre-Columbian era."

/-- The article returned for queries mentioning ReAct agents
(src/ReAct-Example.py line 64). -/
def reactArticle : String :=
  "A ReAct Agent combines Reasoning and Acting within large language models. It generates verbal reasoning traces and actions pertaining to a task, allowing for dynamic reasoning, tool use, and information gathering."

/-- The not-found message; note that the f-string at line 66 interpolates
the variable `query` after it has been reassigned to its lowercased form. -/
def notFoundMsg (loweredQuery : String) : String :=
  "Couldn't find information about '" ++ loweredQuery ++ "' on Fake Wikipedia."

/-- `search_wikipedia` from src/ReAct-Example.py lines 49-66 (the body after
the diagnostic print, which is modelled separately in the traced runner). -/
def search_wikipedia (query : String) : String :=
  let query := pyLower query
  if pyIn "alan turing" query then turingArticle
  else if pyIn "llama" query then llamaArticle
  else if pyIn "react agent" query then reactArticle
  else notFoundMsg query

/-- `multiply` from src/ReAct-Example.py lines 29-37: the body is literally
`a * b`; Python is duck-typed, so the embedding is polymorphic in the
number type. -/
def multiply {α : Type} [Mul α] (a b : α) : α := a * b

/-- `add` from src/ReAct-Example.py lines 39-47: the body is literally
`a + b`. -/
def add {α : Type} [Add α] (a b : α) : α := a + b

/-- A LlamaIndex `FunctionTool` descriptor as the script consumes it:
`FunctionTool.from_defaults(fn=..., name=...)` keeps the given name and the
function's docstring as the model-facing description. -/
structure FunctionTool where
  name : String
  description : String
deriving DecidableEq

/-- `multiply_tool` (src/ReAct-Example.py line 70): name "multiply_numbers",
description the docstring of `multiply`. -/
def multiply_tool : FunctionTool :=
  ⟨"multiply_numbers",
   "\n    Multiplies two numbers, a and b. Use this for multiplication tasks.\n    Args:\n        a (float): The first number.\n        b (float): The second number.\n    "⟩

/-- `add_tool` (src/ReAct-Example.py line 71): name "add_numbers",
description the docstring of `add`. -/
def add_tool : FunctionTool :=
  ⟨"add_numbers",
   "\n    Adds two numbers, a and b. Use this for addition tasks.\n     Args:\n        a (float): The first number.\n        b (float): The second number.\n    "⟩

/-- `wikipedia_tool` (src/ReAct-Example.py line 72): name "wikipedia_search",
description the docstring of `search_wikipedia`. -/
def wikipedia_tool : FunctionTool :=
  ⟨"wikipedia_search",
   "\n    Looks up a query on a FAKE Wikipedia. Use this to find information about people, places, or concepts.\n    Args:\n        query (str): The search term to look up.\n    "⟩

/-- The tool registry `tools = [multiply_tool, add_tool, wikipedia_tool]`
(src/ReAct-Example.py line 75). -/
def tools : List FunctionTool :=
  [multiply_tool, add_tool, wikipedia_tool]

/-- The fake-Wikipedia table in the order the `if`/`elif` chain checks it
(src/ReAct-Example.py lines 59-64). -/
def fakeWikipediaTable : List (String × String) :=
  [("alan turing", turingArticle), ("llama", llamaArticle), ("react agent", reactArticle)]

/-- Lookup following the spec's words: the table substrings are tested in
their fixed static order against the lowercased query and the first match
wins; otherwise the not-found message results.  Stated separately from
`search_wikipedia` so the two can be proved equal. -/
def firstMatchLookup (q : String) : String :=
  match fakeWikipediaTable.find? (fun e => pyIn e.1 (pyLower q)) with
  | some e => e.2
  | none => notFoundMsg (pyLower q)

/-- Python exceptions as the script distinguishes them: the `except` clauses
at lines 150 and 157 separate `AttributeError` from every other exception,
and the configuration check at line 21 raises a `ValueError`. -/
inductive PyExc where
  | valueError (msg : String)
  | attributeError (msg : String)
  | otherError (msg : String)
deriving DecidableEq

/-- The shape the introspection block probes on the worker's chat formatter:
`system_header` may be a present attribute or missing (`none`), and
`_get_tool_description`, when present, is an external method whose call on
`tools` either returns a string or raises. -/
structure ReActFormatter where
  system_header : Option String
  get_tool_description : Option (Except PyExc String)

/-- The shape the introspection block probes on `agent.agent_worker`:
either of the two probed attributes may be missing, and the
`get_system_prompt` method, when present, may raise when called. -/
structure AgentWorker where
  react_chat_formatter : Option ReActFormatter
  get_system_prompt : Option (Except PyExc String)

/-- The delegate's internal state as seen by the introspection block; the
initial attribute access `agent.agent_worker` itself may raise. -/
structure AgentInternals where
  agent_worker : Except PyExc AgentWorker

/-- The body of the `try` block at src/ReAct-Example.py lines 103-148, as a
computation that returns the lines it prints or raises a `PyExc`. -/
def introspectBody (ag : AgentInternals) : Except PyExc (List String) :=
  match ag.agent_worker with
  | .error e => .error e
  | .ok w =>
    match w.react_chat_formatter with
    | some f =>
      match f.system_header with
      | some sp =>
        let base := ["--- System Prompt ---", sp, "---------------------"]
        match f.get_tool_description with
        | some r =>
          match r with
          | .error e => .error e
          | .ok td =>
            .ok (base ++ ["--- Generated Tool Description (Part of Prompt) ---", td,
                          "----------------------------------------------------"])
        | none =>
          .ok (base ++ ["(Could not find method to get formatted tool description)"])
      | none =>
        .ok ["Could not find 'system_header' attribute on the formatter.",
             "Agent's internal structure might have changed.",
             "Try inspecting formatter attributes:"]
    | none =>
      match w.get_system_prompt with
      | some r =>
        match r with
        | .error e => .error e
        | .ok sp =>
          .ok ["--- System Prompt (via get_system_prompt) ---", sp,
               "---------------------------------------------"]
      | none =>
        .ok ["Could not find '_react_chat_formatter' or 'get_system_prompt' on the agent worker.",
             "Agent's internal structure might differ based on LlamaIndex version.",
             "Try inspecting agent_worker attributes:"]

/-- The `except` handlers at lines 150-158: an `AttributeError` gets the
version-skew message, any other exception the generic message. -/
def excReport : PyExc → List String
  | .attributeError m =>
    ["Error accessing internal agent attributes: " ++ m,
     "This often happens if LlamaIndex internal structure has changed between versions.",
     "Try inspecting the agent object directly:"]
  | .valueError m => ["An unexpected error occurred: " ++ m]
  | .otherError m => ["An unexpected error occurred: " ++ m]

/-- The whole guarded introspection block (`try`/`except`): an exception in
the body is caught and turned into printed messages, so the block as a whole
is a computation that may in principle raise but in fact never does. -/
def introspectGuarded (ag : AgentInternals) : Except PyExc (List String) :=
  match introspectBody ag with
  | .ok msgs => .ok msgs
  | .error e => .ok (excReport e)

/-- Print events a tool emits while running; the numeric tools interpolate
their two arguments, the search tool its raw query string. -/
inductive ToolEvent (α : Type) where
  | printMul (a b : α)
  | printAdd (a b : α)
  | printSearch (line : String)
deriving DecidableEq

/-- `multiply` run as the effectful Python function it is: it reads and
writes no module global (the state `g` passes through), prints one
diagnostic line, and returns `a * b`. -/
def multiplyRun {α σ : Type} [Mul α] (g : σ) (a b : α) : σ × List (ToolEvent α) × α :=
  (g, [ToolEvent.printMul a b], multiply a b)

/-- `add` run as the effectful Python function it is. -/
def addRun {α σ : Type} [Add α] (g : σ) (a b : α) : σ × List (ToolEvent α) × α :=
  (g, [ToolEvent.printAdd a b], add a b)

/-- `search_wikipedia` run as the effectful Python function it is; the
diagnostic print at line 55 shows the query before it is lowercased. -/
def searchRun {α σ : Type} (g : σ) (q : String) : σ × List (ToolEvent α) × String :=
  (g, [ToolEvent.printSearch ("--- Calling Wikipedia Tool with query: " ++ q ++ " ---")],
   search_wikipedia q)

/-- A tool invocation the external delegate may issue during `agent.chat`. -/
inductive ToolCall (α : Type) where
  | mulCall (a b : α)
  | addCall (a b : α)
  | searchCall (q : String)

/-- The external agent delegate, abstracted as an oracle: the sequence of
tool invocations it performs during `agent.chat(question)` and the outcome
of the call (a response, or an exception the script does not catch). -/
structure ChatOracle (α : Type) where
  calls : List (ToolCall α)
  outcome : Except PyExc String

/-- Observable events of a run of the script. -/
inductive Event (α : Type) where
  | toolConstructed (name : String)
  | llmConstructed
  | agentConstructed
  | printed (line : String)
  | toolDiag (e : ToolEvent α)

/-- The diagnostic prints caused by one delegate-issued tool invocation,
taken from the traced tool runners. -/
def toolCallEvents {α : Type} [Mul α] [Add α] (c : ToolCall α) : List (ToolEvent α) :=
  match c with
  | .mulCall a b => (multiplyRun () a b).2.1
  | .addCall a b => (addRun () a b).2.1
  | .searchCall q => (searchRun () q).2.1

/-- All tool-diagnostic events of a chat, in invocation order. -/
def chatEvents {α : Type} [Mul α] [Add α] (o : ChatOracle α) : List (Event α) :=
  o.calls.flatMap (fun c => (toolCallEvents c).map Event.toolDiag)

/-- The message of the `ValueError` raised at line 21 when the credential is
missing. -/
def envErrorMsg : String :=
  "GOOGLE_API_KEY not found in environment variables. Please set it in your .env file."

/-- Does an event witness tool activity (construction of a tool descriptor
or a tool's diagnostic print)? -/
def isToolActivity {α : Type} : Event α → Bool
  | .toolConstructed _ => true
  | .toolDiag _ => true
  | _ => false

/-- The module-level control flow of src/ReAct-Example.py, from the
environment read at line 18 to the end of the introspection block:
the credential check, then tool construction (lines 70-75), LLM and agent
construction (lines 80-87), the chat call (line 94) with the delegate's
tool invocations, the result prints, and the guarded introspection.
Returns the event trace together with the uncaught exception, if any. -/
def runScript {α : Type} [Mul α] [Add α]
    (google_api_key : Option String) (o : ChatOracle α) (ag : AgentInternals) :
    List (Event α) × Option PyExc :=
  match google_api_key with
  | none => ([], some (PyExc.valueError envErrorMsg))
  | some _ =>
    let constructionEvts : List (Event α) :=
      [Event.toolConstructed "multiply_numbers",
       Event.toolConstructed "add_numbers",
       Event.toolConstructed "wikipedia_search",
       Event.llmConstructed,
       Event.agentConstructed,
       Event.printed "--- Starting Agent ---"]
    match o.outcome with
    | .error e => (constructionEvts ++ chatEvents o, some e)
    | .ok resp =>
      let answerEvts : List (Event α) :=
        [Event.printed "\n--- Final Answer ---",
         Event.printed resp,
         Event.printed "\n--- Agent Finished ---"]
      let introEvts : List (Event α) :=
        match introspectGuarded ag with
        | .ok msgs => msgs.map Event.printed
        | .error _ => []
      (constructionEvts ++ chatEvents o ++ answerEvts ++ introEvts, none)

/-- An auxiliary bound used below: `Char.ofNat` at a number below the
surrogate range decodes back to the same number. -/
theorem char_toNat_ofNat_of_lt {m : Nat} (h : m < 55296) : (Char.ofNat m).toNat = m := by
  have hv : m.isValidChar := Or.inl h
  unfold Char.ofNat
  rw [dif_pos hv]
  rfl

/-- `Char.toLower` is idempotent: a lowered character is never in the
upper-case latin range. -/
theorem char_toLower_idem (c : Char) : c.toLower.toLower = c.toLower := by
  unfold Char.toLower
  by_cases h : c.toNat ≥ 65 ∧ c.toNat ≤ 90
  · rw [if_pos h]
    have h1 : (Char.ofNat (c.toNat + 32)).toNat = c.toNat + 32 :=
      char_toNat_ofNat_of_lt (by omega)
    rw [if_neg (by omega)]
  · rw [if_neg h, if_neg h]

/-- `pyLower` is idempotent. -/
theorem pyLower_idem (s : String) : pyLower (pyLower s) = pyLower s := by
  simp [pyLower, List.map_map, Function.comp_def, char_toLower_idem]

/-- A list is a prefix-match of itself followed by anything. -/
theorem listPrefixOf_append (m t : List Char) : listPrefixOf m (m ++ t) = true := by
  induction m with
  | nil => rfl
  | cons a as ih => simp [listPrefixOf, ih]

/-- A prefix-match is in particular a substring-match. -/
theorem listInfixOf_of_prefixOf {m l : List Char} (h : listPrefixOf m l = true) :
    listInfixOf m l = true := by
  cases l with
  | nil => simpa [listInfixOf] using h
  | cons b t => simp [listInfixOf, h]

/-- Substring-match is preserved by extending the haystack on the left. -/
theorem listInfixOf_cons {m t : List Char} (b : Char) (h : listInfixOf m t = true) :
    listInfixOf m (b :: t) = true := by
  simp [listInfixOf, h]

/-- A list embedded between two others is a substring-match of the whole. -/
theorem listInfixOf_embed (p m s : List Char) : listInfixOf m (p ++ (m ++ s)) = true := by
  induction p with
  | nil => exact listInfixOf_of_prefixOf (listPrefixOf_append m s)
  | cons b bs ih => exact listInfixOf_cons b ih

/-- A string embedded between two others is contained in the whole, in the
sense of Python's `in`. -/
theorem pyIn_embed (a m b : String) : pyIn m (a ++ m ++ b) = true := by
  simp only [pyIn, String.data_append, List.append_assoc]
  exact listInfixOf_embed a.data m.data b.data

/-- Every successful run of the introspection body prints at least one
line. -/
theorem introspectBody_ok_ne_nil (ag : AgentInternals) :
    ∀ msgs, introspectBody ag = Except.ok msgs → msgs ≠ [] := by
  obtain ⟨aw⟩ := ag
  intro msgs h
  cases aw with
  | error e => simp [introspectBody] at h
  | ok w =>
    obtain ⟨fmt, gsp⟩ := w
    cases fmt with
    | some f =>
      obtain ⟨sh, gtd⟩ := f
      cases sh with
      | some sp =>
        cases gtd with
        | some r =>
          cases r with
          | ok td => simp [introspectBody] at h; subst h; simp
          | error e => simp [introspectBody] at h
        | none => simp [introspectBody] at h; subst h; simp
      | none => simp [introspectBody] at h; subst h; simp
    | none =>
      cases gsp with
      | some r =>
        cases r with
        | ok sp => simp [introspectBody] at h; subst h; simp
        | error e => simp [introspectBody] at h
      | none => simp [introspectBody] at h; subst h; simp

/-- Every exception handler prints at least one line. -/
theorem excReport_ne_nil (e : PyExc) : excReport e ≠ [] := by
  cases e <;> simp [excReport]

/-- C1 (counterexample): the query "Foo" matches none of the three table
substrings case-insensitively, yet the returned not-found message does not
contain the literal queried text "Foo" as the caller supplied it (the
message embeds the lowercased form "foo" instead). -/
theorem search_not_found_literal_counterexample :
    (pyIn "alan turing" (pyLower "Foo") = false ∧
     pyIn "llama" (pyLower "Foo") = false ∧
     pyIn "react agent" (pyLower "Foo") = false) ∧
    pyIn "Foo" (search_wikipedia "Foo") = false := by
  decide

/-- C1 (amended): for every query that case-insensitively matches none of
the three table substrings, `search_wikipedia` returns the not-found
message, which contains the lowercased form of the queried text and
indicates nothing was found. -/
theorem search_not_found_message (q : String)
    (h1 : pyIn "alan turing" (pyLower q) = false)
    (h2 : pyIn "llama" (pyLower q) = false)
    (h3 : pyIn "react agent" (pyLower q) = false) :
    search_wikipedia q = notFoundMsg (pyLower q) ∧
    pyIn (pyLower q) (search_wikipedia q) = true := by
  have he : search_wikipedia q = notFoundMsg (pyLower q) := by
    simp [search_wikipedia, h1, h2, h3]
  refine ⟨he, ?_⟩
  rw [he]
  simp only [notFoundMsg]
  exact pyIn_embed "Couldn't find information about '" (pyLower q) "' on Fake Wikipedia."

/-- Witness for the amended C1 at the concrete query "Foo". -/
theorem search_not_found_message_witness :
    search_wikipedia "Foo" = notFoundMsg (pyLower "Foo") ∧
    pyIn (pyLower "Foo") (search_wikipedia "Foo") = true :=
  search_not_found_message "Foo" (by decide) (by decide) (by decide)

/-- C2: with the credential environment variable absent, the script raises
the `ValueError` immediately after reading the environment: the event trace
is empty, so in particular no tool is constructed, no agent is constructed,
and no tool's diagnostic print ever executes, whatever the external
delegate would have done. -/
theorem missing_credential_fails_before_tools {α : Type} [Mul α] [Add α]
    (o : ChatOracle α) (ag : AgentInternals) :
    (runScript none o ag).2 = some (PyExc.valueError envErrorMsg) ∧
    (runScript none o ag).1 = [] ∧
    ∀ e ∈ (runScript none o ag).1, isToolActivity e = false := by
  refine ⟨rfl, rfl, ?_⟩
  intro e he
  simp [runScript] at he

/-- Witness for C2 at a concrete oracle and delegate state. -/
theorem missing_credential_fails_before_tools_witness :
    (runScript (α := ℚ) none ⟨[ToolCall.mulCall 2 3], Except.ok "resp"⟩
        ⟨Except.error (PyExc.attributeError "gone")⟩).2
      = some (PyExc.valueError envErrorMsg) ∧
    (runScript (α := ℚ) none ⟨[ToolCall.mulCall 2 3], Except.ok "resp"⟩
        ⟨Except.error (PyExc.attributeError "gone")⟩).1 = [] ∧
    ∀ e ∈ (runScript (α := ℚ) none ⟨[ToolCall.mulCall 2 3], Except.ok "resp"⟩
        ⟨Except.error (PyExc.attributeError "gone")⟩).1, isToolActivity e = false :=
  missing_credential_fails_before_tools _ _

/-- C3: whatever shape the delegate's internals have — a missing attribute
at any probed level, or an exception raised while probing — the guarded
introspection block returns normally with at least one printed message, and
when the body raised, the messages are exactly the handler's report, so the
failure is reported and never propagated. -/
theorem introspection_never_propagates (ag : AgentInternals) :
    ∃ msgs, introspectGuarded ag = Except.ok msgs ∧ msgs ≠ [] ∧
      (∀ e, introspectBody ag = Except.error e → msgs = excReport e) := by
  cases h : introspectBody ag with
  | ok msgs =>
    refine ⟨msgs, by simp [introspectGuarded, h], introspectBody_ok_ne_nil ag msgs h, ?_⟩
    intro e he
    simp at he
  | error e =>
    refine ⟨excReport e, by simp [introspectGuarded, h], excReport_ne_nil e, ?_⟩
    intro e' he'
    injection he' with h2
    rw [h2]

/-- Witness for C3 at a delegate whose very first attribute access raises. -/
theorem introspection_never_propagates_witness :
    ∃ msgs,
      introspectGuarded ⟨Except.error (PyExc.otherError "boom")⟩ = Except.ok msgs ∧
      msgs ≠ [] ∧
      (∀ e, introspectBody ⟨Except.error (PyExc.otherError "boom")⟩ = Except.error e →
        msgs = excReport e) :=
  introspection_never_propagates ⟨Except.error (PyExc.otherError "boom")⟩

/-- C4: the three known queries return articles containing the expected
phrases. -/
theorem search_known_entries :
    pyIn "British mathematician" (search_wikipedia "Alan Turing") = true ∧
    pyIn "camelid" (search_wikipedia "llama") = true ∧
    pyIn "Reasoning and Acting" (search_wikipedia "react agent") = true := by
  refine ⟨?_, ?_, ?_⟩ <;> decide

/-- C5: `search_wikipedia` is exactly first-match lookup in the fixed table
order "alan turing", "llama", "react agent" against the lowercased query;
in particular, when several substrings match, the first in that order
wins. -/
theorem search_first_match_order (q : String) :
    search_wikipedia q = firstMatchLookup q := by
  unfold search_wikipedia firstMatchLookup fakeWikipediaTable
  cases h1 : pyIn "alan turing" (pyLower q) <;>
    cases h2 : pyIn "llama" (pyLower q) <;>
      cases h3 : pyIn "react agent" (pyLower q) <;>
        simp [List.find?, h1, h2, h3]

/-- C6: `add` returns the sum of its two arguments, over the reals. -/
theorem add_returns_sum (a b : ℝ) : add a b = a + b := rfl

/-- C7: `multiply` returns the product of its two arguments, over the
reals. -/
theorem multiply_returns_product (a b : ℝ) : multiply a b = a * b := rfl

/-- C8: no two tools in the registry share a name. -/
theorem tool_names_unique : (tools.map FunctionTool.name).Nodup := by
  decide

/-- C9: each tool function is deterministic and free of shared mutable
state: it passes the module state through unchanged, its value does not
depend on that state (so two runs on the same arguments agree), and its
only side effect is the single diagnostic print emitted before the value is
returned. -/
theorem tool_functions_pure {α σ : Type} [Mul α] [Add α]
    (g g' : σ) (a b : α) (q : String) :
    ((multiplyRun g a b).1 = g ∧
     (multiplyRun g a b).2 = (multiplyRun g' a b).2 ∧
     (multiplyRun g a b).2.1 = [ToolEvent.printMul a b] ∧
     (multiplyRun g a b).2.2 = multiply a b) ∧
    ((addRun g a b).1 = g ∧
     (addRun g a b).2 = (addRun g' a b).2 ∧
     (addRun g a b).2.1 = [ToolEvent.printAdd a b] ∧
     (addRun g a b).2.2 = add a b) ∧
    ((searchRun (α := α) g q).1 = g ∧
     (searchRun (α := α) g q).2 = (searchRun (α := α) g' q).2 ∧
     (searchRun (α := α) g q).2.1
        = [ToolEvent.printSearch ("--- Calling Wikipedia Tool with query: " ++ q ++ " ---")] ∧
     (searchRun (α := α) g q).2.2 = search_wikipedia q) :=
  ⟨⟨rfl, rfl, rfl, rfl⟩, ⟨rfl, rfl, rfl, rfl⟩, ⟨rfl, rfl, rfl, rfl⟩⟩

/-- C10: `search_wikipedia` is invariant under lowercasing its input,
including in the not-found case. -/
theorem search_lowercase_invariant (q : String) :
    search_wikipedia q = search_wikipedia (pyLower q) := by
  simp only [search_wikipedia, pyLower_idem]

